import Mathlib

/-!
Shallow embedding of `pkg/gcp/gcs/gcs.go` (package `gcs`), the bucket-copy
facade of the release repository.  Go strings are modelled as `List Char`
(the paths and flags involved are ASCII, so Go's byte indexing coincides
with character indexing).  The external collaborators are modelled
explicitly: the filesystem check `os.Stat` becomes a boolean `srcExists`
parameter, and the subprocess runner `gcp.GSUtil` becomes an oracle
function from an argument list to an `Except` result.  Go `nil`-pointer
dereference (possible because `Options` holds `*bool` fields) is modelled
by an explicit `panics` outcome.
-/

/-- Go strings, modelled as lists of characters. -/
abbrev Str := List Char

/-- Character-list form of a string literal. -/
def str (s : String) : Str := s.toList

/-- Path separator test, `os.IsPathSeparator` on Unix (`filepath.Separator = '/'`). -/
def isSep (c : Char) : Bool := c = '/'

/-- Inner loop of the `..` backtracking in `filepath.Clean`:
Go's `for out.w > dotdot && !os.IsPathSeparator(out.index(out.w)) { out.w-- }`.
The output buffer is kept reversed (`rev`), and `last` is the character at
index `out.w`, i.e. the character most recently dropped. -/
def popWhile (dotdot : Nat) : Str → Char → Str
  | [], _ => []
  | c :: rest, last =>
    if dotdot < (c :: rest).length && !isSep last then popWhile dotdot rest c
    else c :: rest

/-- The `out.w > dotdot` branch of the `..` case of `filepath.Clean`:
one unconditional `out.w--` followed by `popWhile`. -/
def backtrack (dotdot : Nat) (rev : Str) : Str :=
  match rev with
  | [] => []
  | c :: rest => popWhile dotdot rest c

/-- True when the current path element ends here: end of input or a separator
(Go's `r+1 == n || os.IsPathSeparator(path[r+1])`). -/
def atElemEnd : Str → Bool
  | [] => true
  | c :: _ => isSep c

/-- Detects a `..` path element at the current read position
(Go's `path[r] == '.' && path[r+1] == '.' && (r+2 == n || os.IsPathSeparator(path[r+2]))`). -/
def isDotDot (c : Char) : Str → Bool
  | c2 :: rest2 => c = '.' && c2 = '.' && atElemEnd rest2
  | [] => false

/-- Main loop of `filepath.Clean` (Unix), translated from `path/filepath/path.go`.
`rev` is the output buffer reversed, `dotdot` the index up to which `..`
may not backtrack, and the last argument is the remaining input.  Go's inner
element-copy loop is rendered with `takeWhile`/`dropWhile`: the element's
characters are appended and reading resumes at the terminating separator.
The `fuel` argument makes the recursion structural; every step consumes at
least one input character and one unit of fuel, so any `fuel ≥` input length
(as supplied by `clean`) never runs out. -/
def cleanLoop (rooted : Bool) : Nat → Nat → Str → Str → Str
  | _, _, rev, [] => rev
  | 0, _, rev, _ => rev
  | fuel + 1, dotdot, rev, c :: rest =>
    if isSep c then
      cleanLoop rooted fuel dotdot rev rest
    else if c = '.' && atElemEnd rest then
      cleanLoop rooted fuel dotdot rev rest
    else if isDotDot c rest then
      if dotdot < rev.length then
        cleanLoop rooted fuel dotdot (backtrack dotdot rev) rest.tail
      else if !rooted then
        let rev' := '.' :: '.' :: (if 0 < rev.length then '/' :: rev else rev)
        cleanLoop rooted fuel rev'.length rev' rest.tail
      else
        cleanLoop rooted fuel dotdot rev rest.tail
    else
      let rev0 := if (rooted && rev.length ≠ 1) || (!rooted && rev.length ≠ 0)
                  then '/' :: rev else rev
      let revElem := (rest.takeWhile (fun c2 => !isSep c2)).reverse ++ c :: rev0
      cleanLoop rooted fuel dotdot revElem (rest.dropWhile (fun c2 => !isSep c2))

/-- Go `path/filepath.Clean` on Unix (volume length 0, `FromSlash` the identity). -/
def clean (path : Str) : Str :=
  match path with
  | [] => ['.']
  | c :: rest =>
    let rooted := isSep c
    let out :=
      if rooted then cleanLoop true rest.length 1 ['/'] rest
      else cleanLoop false (c :: rest).length 0 [] (c :: rest)
    if out = [] then ['.'] else out.reverse

/-- Go `path/filepath.Join` restricted to the two-element form used by `gcs.go`:
skip leading empty elements, join the rest with `/`, and `Clean` the result. -/
def filepathJoin (a b : Str) : Str :=
  if a ≠ [] then clean (a ++ '/' :: b)
  else if b ≠ [] then clean b
  else []

/-- The package variable `GcsPrefix = "gs://"`. -/
def GcsPrefix : Str := str "gs://"

/-- The package variable `concurrentFlag = "-m"`. -/
def concurrentFlag : Str := str "-m"

/-- The package variable `recursiveFlag = "-r"`. -/
def recursiveFlag : Str := str "-r"

/-- The package variable `noClobberFlag = "-n"`. -/
def noClobberFlag : Str := str "-n"

/-- Go `strings.TrimPrefix(s, pre)`: drop `pre` from the front of `s` when
`strings.HasPrefix(s, pre)` holds, otherwise return `s` unchanged. -/
def stringsTrimPre (s pre : Str) : Str :=
  if pre <+: s then s.drop pre.length else s

/-- The function `NormalizeGCSPath` of `gcs.go`: strip one occurrence of
`GcsPrefix` and re-prepend it. -/
def NormalizeGCSPath (gcsPath : Str) : Str :=
  let gcsPath := stringsTrimPre gcsPath GcsPrefix
  GcsPrefix ++ gcsPath

/-- The function `getPath` of `gcs.go`: join bucket and build type, append a
hyphenated suffix, and for `pathType == "release"` optionally a `fast`
segment and a version segment. -/
def getPath (bucket buildType gcsSuffix version pathType : Str) (fast : Bool) : Str :=
  let gcsPath := bucket
  let gcsPath := filepathJoin gcsPath buildType
  let gcsPath := if gcsSuffix ≠ [] then gcsPath ++ '-' :: gcsSuffix else gcsPath
  if pathType = str "release" then
    let gcsPath := if fast then filepathJoin gcsPath (str "fast") else gcsPath
    if version ≠ [] then filepathJoin gcsPath version else gcsPath
  else gcsPath

/-- The function `GetReleasePath` of `gcs.go`. -/
def GetReleasePath (bucket buildType gcsSuffix version : Str) (fast : Bool) : Str :=
  getPath bucket buildType gcsSuffix version (str "release") fast

/-- The function `GetMarkerPath` of `gcs.go`. -/
def GetMarkerPath (bucket buildType gcsSuffix : Str) : Str :=
  getPath bucket buildType gcsSuffix [] (str "marker") false

/-- The struct `Options` of `gcs.go`.  Each Go field is a `*bool`; a `nil`
pointer is `none`, and dereferencing `none` models a Go runtime panic. -/
structure Options where
  Concurrent : Option Bool
  Recursive : Option Bool
  NoClobber : Option Bool
  AllowMissing : Option Bool
deriving DecidableEq, Repr

/-- The package value `DefaultGCSCopyOptions`, all four fields pointing at `true`. -/
def DefaultGCSCopyOptions : Options :=
  { Concurrent := some true, Recursive := some true
    NoClobber := some true, AllowMissing := some true }

/-- Result of one facade operation: Go `nil` error, a non-nil error with its
message, or a runtime panic (nil-pointer dereference). -/
inductive Outcome where
  | ok : Outcome
  | err : Str → Outcome
  | panics : Outcome
deriving DecidableEq, Repr

/-- The external subprocess runner `gcp.GSUtil`, as an oracle from the
argument list to exit status (with an error message on failure). -/
def Gsutil : Type := List Str → Except Str Unit

/-- Go `github.com/pkg/errors.Wrap` message layout: `"msg: err"`. -/
def wrapMsg (msg e : Str) : Str := msg ++ str ": " ++ e

/-- Argument-list assembly of `bucketCopy` in `gcs.go`, dereferencing
`Concurrent`, `Recursive` and `NoClobber` in source order; `none` from any
dereference is the Go nil-pointer panic. -/
def bucketCopyArgs (src dst : Str) (opts : Options) : Option (List Str) := do
  let args : List Str := []
  let c ← opts.Concurrent
  let args := if c then args ++ [concurrentFlag] else args
  let args := args ++ [str "cp"]
  let r ← opts.Recursive
  let args := if r then args ++ [recursiveFlag] else args
  let n ← opts.NoClobber
  let args := if n then args ++ [noClobberFlag] else args
  pure (args ++ [src, dst])

/-- The function `bucketCopy` of `gcs.go`: build the argument list, run
`gcp.GSUtil`, and wrap a failure with `"gcs copy"`.  The second component
records every argument list passed to the external tool. -/
def bucketCopy (gsutil : Gsutil) (src dst : Str) (opts : Options) :
    Outcome × List (List Str) :=
  match bucketCopyArgs src dst opts with
  | none => (.panics, [])
  | some args =>
    match gsutil args with
    | .ok _ => (.ok, [args])
    | .error e => (.err (wrapMsg (str "gcs copy") e), [args])

/-- The function `CopyToGCS` of `gcs.go`: normalize the destination, check
the local source with `os.Stat` (modelled by `srcExists`), skip or fail on a
missing source depending on `AllowMissing`, otherwise run `bucketCopy`. -/
def CopyToGCS (gsutil : Gsutil) (srcExists : Bool) (src gcsPath : Str)
    (opts : Options) : Outcome × List (List Str) :=
  let gcsPath := NormalizeGCSPath gcsPath
  if srcExists then
    bucketCopy gsutil src gcsPath opts
  else
    match opts.AllowMissing with
    | none => (.panics, [])
    | some true => (.ok, [])
    | some false => (.err (str "source directory does not exist"), [])

/-- The function `CopyToLocal` of `gcs.go`: normalize the bucket source and
run `bucketCopy`; no existence pre-check. -/
def CopyToLocal (gsutil : Gsutil) (gcsPath dst : Str) (opts : Options) :
    Outcome × List (List Str) :=
  bucketCopy gsutil (NormalizeGCSPath gcsPath) dst opts

/-- The function `CopyBucketToBucket` of `gcs.go`: normalize both paths and
run `bucketCopy`. -/
def CopyBucketToBucket (gsutil : Gsutil) (src dst : Str) (opts : Options) :
    Outcome × List (List Str) :=
  bucketCopy gsutil (NormalizeGCSPath src) (NormalizeGCSPath dst) opts

/-- The function `RsyncRecursive` of `gcs.go`: run
`gsutil -m rsync -r src dst` and wrap a failure with `"running gsutil rsync"`
(`errors.Wrap` of a nil error is nil). -/
def RsyncRecursive (gsutil : Gsutil) (src dst : Str) : Outcome :=
  match gsutil [str "-m", str "rsync", str "-r", src, dst] with
  | .ok _ => .ok
  | .error e => .err (wrapMsg (str "running gsutil rsync") e)

/-- The function `PathExists` of `gcs.go`: run `gsutil ls gcsPath`; a zero
exit yields `(true, nil)`, a failure yields `(false, err)` with the
unwrapped error. -/
def PathExists (gsutil : Gsutil) (gcsPath : Str) : Bool × Option Str :=
  match gsutil [str "ls", gcsPath] with
  | .error e => (false, some e)
  | .ok _ => (true, none)

/-- A subprocess oracle whose every invocation succeeds. -/
def gsutilOk : Gsutil := fun _ => .ok ()

/-- A subprocess oracle whose every invocation fails with message `"exit 1"`. -/
def gsutilFail : Gsutil := fun _ => .error (str "exit 1")

/-! ## Helper lemmas -/

/-- Trimming the prefix just prepended recovers the original remainder. -/
theorem stringsTrimPre_append (t : Str) :
    stringsTrimPre (GcsPrefix ++ t) GcsPrefix = t := by
  unfold stringsTrimPre
  rw [if_pos (List.prefix_append _ _), List.drop_left]

/-- Unfolding of `NormalizeGCSPath`. -/
theorem normalizeGCSPath_def (p : Str) :
    NormalizeGCSPath p = GcsPrefix ++ stringsTrimPre p GcsPrefix := rfl

/-- With all three gsutil option fields set, `bucketCopyArgs` succeeds (no
nil-pointer dereference). -/
theorem bucketCopyArgs_isSome (src dst : Str) (c r n : Bool) (am : Option Bool) :
    (bucketCopyArgs src dst
      { Concurrent := some c, Recursive := some r, NoClobber := some n,
        AllowMissing := am }).isSome = true := by
  cases c <;> cases r <;> cases n <;> rfl

/-- With all three gsutil option fields set, `bucketCopy` never panics. -/
theorem bucketCopy_ne_panics (gsutil : Gsutil) (src dst : Str) (c r n : Bool)
    (am : Option Bool) :
    (bucketCopy gsutil src dst
      { Concurrent := some c, Recursive := some r, NoClobber := some n,
        AllowMissing := am }).1 ≠ Outcome.panics := by
  obtain ⟨args, hargs⟩ :=
    Option.isSome_iff_exists.mp (bucketCopyArgs_isSome src dst c r n am)
  unfold bucketCopy
  rw [hargs]
  cases hg : gsutil args <;> simp [hg]

/-- When the argument list is assembled successfully, `bucketCopy` passes
exactly that list to the external tool, once. -/
theorem bucketCopy_trace (gsutil : Gsutil) (src dst : Str) (opts : Options)
    (args : List Str) (h : bucketCopyArgs src dst opts = some args) :
    (bucketCopy gsutil src dst opts).2 = [args] := by
  unfold bucketCopy
  rw [h]
  cases hg : gsutil args <;> simp [hg]

/-! ## Claim theorems -/

/-- C1: the spec's two release-path examples fail on the code.  `getPath`
builds the path with `filepath.Join`, whose `Clean` collapses the double
slash of the `gs://` scheme, so a `gs://`-prefixed bucket yields `gs:/...`,
contradicting the function's own documented destination format
`gs://<bucket>/<buildType>[-<gcsSuffix>][/fast][/<version>]`.  This theorem
evaluates the code at the spec's two example inputs. -/
theorem getReleasePath_collapses_scheme :
    GetReleasePath (str "gs://bucket") (str "ci") [] [] false
      = str "gs:/bucket/ci" ∧
    GetReleasePath (str "gs://bucket") (str "ci") (str "fast-build") (str "v1.2.3") true
      = str "gs:/bucket/ci-fast-build/fast/v1.2.3" ∧
    GetReleasePath (str "gs://bucket") (str "ci") [] [] false
      ≠ str "gs://bucket/ci" := by
  refine ⟨by decide, by decide, by decide⟩

/-- C2 counterexample: `"gs://gs://a"` begins with the canonical prefix
twice, and `NormalizeGCSPath` leaves it that way — its result starts with
the prefix twice, refuting "exactly once ... no matter how many times the
prefix already occurs at the start". -/
theorem normalizeGCSPath_double_prefix_counterexample :
    GcsPrefix ++ GcsPrefix ++ str "a" = str "gs://gs://a" ∧
    NormalizeGCSPath (str "gs://gs://a") = str "gs://gs://a" ∧
    GcsPrefix ++ GcsPrefix <+: NormalizeGCSPath (str "gs://gs://a") := by
  refine ⟨by decide, by decide, by decide⟩

/-- C2 (amended): `NormalizeGCSPath p` always starts with `gs://`, and starts
with it exactly once (i.e. not twice) provided `p` itself does not already
start with a doubled prefix `gs://gs://`. -/
theorem normalizeGCSPath_prefix_correct (p : Str)
    (h : ¬ GcsPrefix ++ GcsPrefix <+: p) :
    GcsPrefix <+: NormalizeGCSPath p ∧
    ¬ GcsPrefix ++ GcsPrefix <+: NormalizeGCSPath p := by
  rw [normalizeGCSPath_def]
  refine ⟨List.prefix_append _ _, fun hdd => ?_⟩
  have h1 : GcsPrefix <+: stringsTrimPre p GcsPrefix :=
    (List.prefix_append_right_inj GcsPrefix).mp hdd
  unfold stringsTrimPre at h1
  by_cases hp : GcsPrefix <+: p
  · rw [if_pos hp] at h1
    obtain ⟨t, ht⟩ := hp
    subst ht
    rw [List.drop_left] at h1
    exact h ((List.prefix_append_right_inj GcsPrefix).mpr h1)
  · rw [if_neg hp] at h1
    exact hp h1

/-- C2 witness: the amended theorem applied at `"bucket/x"`. -/
theorem normalizeGCSPath_prefix_correct_witness :
    GcsPrefix <+: NormalizeGCSPath (str "bucket/x") ∧
    ¬ GcsPrefix ++ GcsPrefix <+: NormalizeGCSPath (str "bucket/x") :=
  normalizeGCSPath_prefix_correct (str "bucket/x") (by decide)

/-- C3 counterexample: an `Options` record with a nil `Concurrent` pointer
(legal for a caller to pass, since the fields are `*bool`) makes
`CopyToLocal` dereference nil inside `bucketCopy` and panic, refuting "no
operation of the facade panics ... including any Options record a caller
may pass". -/
theorem copyToLocal_nil_option_panics :
    (CopyToLocal gsutilOk (str "gs://b/x") (str "/tmp/dst")
      { Concurrent := none, Recursive := some true, NoClobber := some true,
        AllowMissing := some true }).1 = Outcome.panics := rfl

/-- C3 (amended): provided the caller passes an `Options` record whose four
pointer fields are all non-nil (as `DefaultGCSCopyOptions` is), no facade
operation panics: each copy operation and `RsyncRecursive` either succeeds
or returns an error outcome, and `PathExists` returns either `(true, nil)`
or `false` with a non-nil error. -/
theorem facade_no_panics (gsutil : Gsutil) (srcExists : Bool) (src dst : Str)
    (opts : Options) (hc : opts.Concurrent.isSome = true)
    (hr : opts.Recursive.isSome = true) (hn : opts.NoClobber.isSome = true)
    (ha : opts.AllowMissing.isSome = true) :
    (CopyToGCS gsutil srcExists src dst opts).1 ≠ Outcome.panics ∧
    (CopyToLocal gsutil src dst opts).1 ≠ Outcome.panics ∧
    (CopyBucketToBucket gsutil src dst opts).1 ≠ Outcome.panics ∧
    RsyncRecursive gsutil src dst ≠ Outcome.panics ∧
    (PathExists gsutil src = (true, none) ∨
      ∃ e, PathExists gsutil src = (false, some e)) := by
  obtain ⟨oc, orc, onc, oam⟩ := opts
  obtain ⟨c, rfl⟩ := Option.isSome_iff_exists.mp hc
  obtain ⟨r, rfl⟩ := Option.isSome_iff_exists.mp hr
  obtain ⟨n, rfl⟩ := Option.isSome_iff_exists.mp hn
  obtain ⟨a, rfl⟩ := Option.isSome_iff_exists.mp ha
  refine ⟨?_,
    bucketCopy_ne_panics gsutil (NormalizeGCSPath src) dst c r n (some a),
    bucketCopy_ne_panics gsutil (NormalizeGCSPath src) (NormalizeGCSPath dst)
      c r n (some a), ?_, ?_⟩
  · unfold CopyToGCS
    cases srcExists
    · cases a <;> simp
    · exact bucketCopy_ne_panics gsutil src (NormalizeGCSPath dst) c r n (some a)
  · unfold RsyncRecursive
    cases hg : gsutil [str "-m", str "rsync", str "-r", src, dst] <;> simp [hg]
  · unfold PathExists
    cases hg : gsutil [str "ls", src] <;> simp [hg]

/-- C3 witness: the amended theorem at concrete inputs with
`DefaultGCSCopyOptions`. -/
theorem facade_no_panics_witness :
    (CopyToGCS gsutilOk true (str "/src") (str "gs://b") DefaultGCSCopyOptions).1
      ≠ Outcome.panics ∧
    (CopyToLocal gsutilOk (str "/src") (str "gs://b") DefaultGCSCopyOptions).1
      ≠ Outcome.panics ∧
    (CopyBucketToBucket gsutilOk (str "/src") (str "gs://b") DefaultGCSCopyOptions).1
      ≠ Outcome.panics ∧
    RsyncRecursive gsutilOk (str "/src") (str "gs://b") ≠ Outcome.panics ∧
    (PathExists gsutilOk (str "/src") = (true, none) ∨
      ∃ e, PathExists gsutilOk (str "/src") = (false, some e)) :=
  facade_no_panics gsutilOk true (str "/src") (str "gs://b")
    DefaultGCSCopyOptions rfl rfl rfl rfl

/-- C4: with a missing local source and `AllowMissing` pointing at `true`,
`CopyToGCS` returns a nil error and records no invocation of the external
tool, for every oracle, path pair and remaining option fields. -/
theorem copyToGCS_missing_source_skips (gsutil : Gsutil) (src dst : Str)
    (opts : Options) (h : opts.AllowMissing = some true) :
    CopyToGCS gsutil false src dst opts = (Outcome.ok, []) := by
  unfold CopyToGCS
  rw [h]
  rfl

/-- C4 witness: the skip behaviour at concrete inputs, under an oracle that
would fail if it were ever invoked. -/
theorem copyToGCS_missing_source_skips_witness :
    CopyToGCS gsutilFail false (str "/gone") (str "gs://b") DefaultGCSCopyOptions
      = (Outcome.ok, []) :=
  copyToGCS_missing_source_skips gsutilFail (str "/gone") (str "gs://b")
    DefaultGCSCopyOptions rfl

/-- C5: with a missing local source and `AllowMissing` pointing at `false`,
`CopyToGCS` returns the missing-source error and records no invocation of
the external tool. -/
theorem copyToGCS_missing_source_errors (gsutil : Gsutil) (src dst : Str)
    (opts : Options) (h : opts.AllowMissing = some false) :
    CopyToGCS gsutil false src dst opts
      = (Outcome.err (str "source directory does not exist"), []) := by
  unfold CopyToGCS
  rw [h]
  rfl

/-- C5 witness: the missing-source error at concrete inputs, under an oracle
that would succeed if it were ever invoked. -/
theorem copyToGCS_missing_source_errors_witness :
    CopyToGCS gsutilOk false (str "/gone") (str "gs://b")
      { Concurrent := some true, Recursive := some true, NoClobber := some true,
        AllowMissing := some false }
      = (Outcome.err (str "source directory does not exist"), []) :=
  copyToGCS_missing_source_errors gsutilOk (str "/gone") (str "gs://b") _ rfl

/-- C6: for every source, destination and option field values, `bucketCopy`
assembles the argument list in exactly the order concurrency flag (if
enabled), `cp`, recursive flag (if enabled), no-clobber flag (if enabled),
source, destination — each disabled flag omitted entirely — and passes
exactly that list to the external tool once. -/
theorem bucketCopy_argument_order (gsutil : Gsutil) (src dst : Str)
    (c r n : Bool) (am : Option Bool) :
    bucketCopyArgs src dst
      { Concurrent := some c, Recursive := some r, NoClobber := some n,
        AllowMissing := am }
      = some ((if c then [concurrentFlag] else []) ++ [str "cp"] ++
          (if r then [recursiveFlag] else []) ++
          (if n then [noClobberFlag] else []) ++ [src, dst]) ∧
    (bucketCopy gsutil src dst
      { Concurrent := some c, Recursive := some r, NoClobber := some n,
        AllowMissing := am }).2
      = [(if c then [concurrentFlag] else []) ++ [str "cp"] ++
          (if r then [recursiveFlag] else []) ++
          (if n then [noClobberFlag] else []) ++ [src, dst]] := by
  have hargs : bucketCopyArgs src dst
      { Concurrent := some c, Recursive := some r, NoClobber := some n,
        AllowMissing := am }
      = some ((if c then [concurrentFlag] else []) ++ [str "cp"] ++
          (if r then [recursiveFlag] else []) ++
          (if n then [noClobberFlag] else []) ++ [src, dst]) := by
    cases c <;> cases r <;> cases n <;> rfl
  exact ⟨hargs, bucketCopy_trace gsutil src dst _ _ hargs⟩

/-- C7: the marker-path builder appends neither a `fast` segment nor a
version segment: for every bucket, build type and suffix, and even for every
version and fast flag handed to the shared general builder `getPath` in
marker mode, the result is exactly `GetMarkerPath`'s, which carries only the
joined bucket and (suffixed) build-type segments. -/
theorem getMarkerPath_ignores_fast_and_version
    (bucket buildType gcsSuffix version : Str) (fast : Bool) :
    getPath bucket buildType gcsSuffix version (str "marker") fast
      = GetMarkerPath bucket buildType gcsSuffix := rfl

/-- C8: `NormalizeGCSPath` is idempotent on every path string. -/
theorem normalizeGCSPath_idempotent (p : Str) :
    NormalizeGCSPath (NormalizeGCSPath p) = NormalizeGCSPath p := by
  rw [normalizeGCSPath_def p, normalizeGCSPath_def, stringsTrimPre_append]

/-- C9: `PathExists` returns `(true, nil)` exactly when the external listing
command `gsutil ls` exits zero, and returns `false` paired with the
underlying error when the listing fails. -/
theorem pathExists_exit_status (gsutil : Gsutil) (p : Str) :
    (PathExists gsutil p = (true, none) ↔ gsutil [str "ls", p] = .ok ()) ∧
    (∀ e, gsutil [str "ls", p] = .error e →
      PathExists gsutil p = (false, some e)) := by
  constructor
  · constructor
    · intro h
      unfold PathExists at h
      cases hg : gsutil [str "ls", p] with
      | error e =>
        rw [hg] at h
        simp at h
      | ok u =>
        rfl
    · intro h
      unfold PathExists
      rw [h]
  · intro e h
    unfold PathExists
    rw [h]

/-- C9 witness: the theorem applied to an always-succeeding and an
always-failing oracle. -/
theorem pathExists_exit_status_witness :
    PathExists gsutilOk (str "gs://b/dir") = (true, none) ∧
    PathExists gsutilFail (str "gs://b/dir") = (false, some (str "exit 1")) :=
  ⟨(pathExists_exit_status gsutilOk (str "gs://b/dir")).1.mpr rfl,
    (pathExists_exit_status gsutilFail (str "gs://b/dir")).2 (str "exit 1") rfl⟩

/-- C10: the marker path coincides with the release path specialized to an
empty version and the fast flag disabled, for every bucket, build type and
suffix. -/
theorem getMarkerPath_eq_releasePath_empty_version
    (bucket buildType gcsSuffix : Str) :
    GetMarkerPath bucket buildType gcsSuffix
      = GetReleasePath bucket buildType gcsSuffix [] false := rfl
